import Mathlib

/-
Verification of selfdrive/modeld/modeld.py (FrogPilot).

Shallow embedding: numpy float32 arrays are modelled as rational-valued
vectors (functions from index to rational, zero outside the array bound),
fixed-shape rolling buffers as lists of such vectors, and the per-cycle
driver loop as explicit state-passing step functions. The opaque inference
engine is an oracle parameter supplying the parsed outputs (hidden state,
desired curvature) of each executed cycle.
-/

/-- An array of rationals, indexed by natural numbers. Models a 1-D numpy
float32 array; indices at or beyond the array length are irrelevant and
read as zero. -/
abbrev Vec := ℕ → ℚ

/-- The all-zeros array (np.zeros). -/
def zeroVec : Vec := fun _ => 0

/-- ModelConstants.DESIRE_LEN. The constants module is not part of the
given source tree; the value 8 is the upstream openpilot value. The
claims below do not depend on this value beyond slot indices being
inside the array. -/
def DESIRE_LEN : ℕ := 8

/-- Models the in-place statement at modeld.py:123,
inputs with key desire, element 0 set to 0. -/
def zeroIdx0 (v : Vec) : Vec := fun i => if i = 0 then 0 else v i

/-- Models modeld.py:124, np.where(cur - prev > .99, cur, 0):
the rising-edge pulse kept only where the elementwise difference with the
previous desire vector exceeds 0.99. -/
def desirePulse (cur prev : Vec) : Vec :=
  fun i => if cur i - prev i > 99/100 then cur i else 0

/-- Elementwise maximum of two vectors. -/
def vmax2 (a b : Vec) : Vec := fun i => max (a i) (b i)

/-- Elementwise maximum of a group of 4 consecutive rows: one group of the
reshape((25,4,-1)).max(axis=1) reduction at modeld.py:129. -/
def groupMax (r0 r1 r2 r3 : Vec) : Vec := vmax2 (vmax2 r0 r1) (vmax2 r2 r3)

/-- Models desire_20Hz.reshape((25,4,-1)).max(axis=1) at modeld.py:129:
the 100-row high-rate desire history pooled by elementwise max over each
group of 4 consecutive rows, giving the 25 model-facing desire rows.
(The code flattens the 25 rows into one buffer; the flattening is a fixed
re-indexing and is kept as a row list here.) -/
def poolGroups : List Vec → List Vec
  | r0 :: r1 :: r2 :: r3 :: rest => groupMax r0 r1 r2 r3 :: poolGroups rest
  | _ => []

/-- Models modeld.py:149-150: idxs = np.arange(-4,-100,-4)[::-1] applied to
the 99-row full_features_20Hz buffer selects rows -96, -92, ..., -4, i.e.
rows 3, 7, ..., 95, which are flattened into the features_buffer input.
The flattening is a fixed re-indexing and is kept as a row list here. -/
def strideSelect (l : List Vec) : List Vec :=
  (List.range 24).map fun j => l.getD (4 * j + 3) zeroVec

/-- The parsed engine outputs consumed by ModelState.run after execute
(modeld.py:141-147): the hidden state row and the desired curvature row.
The inference engine and output parser are opaque collaborators, so these
are supplied by an oracle per executed cycle. -/
structure EngineOutputs where
  hidden_state : Vec
  desired_curvature : Vec

/-- The numeric input buffers bound to the engine at the moment execute()
runs (modeld.py:140). Image tensors are prepared by the opaque warp stage
and are not modelled. -/
structure ExecInputs where
  desire : List Vec
  traffic_convention : Vec
  lateral_control_params : Vec
  features_buffer : List Vec
  prev_desired_curv : List Vec

/-- The mutable per-process state of ModelState (modeld.py:75-98) that the
claims concern: the previous desire vector, the rolling 20Hz histories,
and the bound numeric input buffers. This models the classic
(non SECRET_GOOD_OPENPILOT) configuration, in which
FULL_HISTORY_BUFFER_LEN = 99 and HISTORY_BUFFER_LEN = 24 as forced by the
reshape((25,4,-1)) at modeld.py:129 and the 24-entry stride at 149. -/
structure ModelState where
  prev_desire : Vec
  desire_20Hz : List Vec
  full_features_20Hz : List Vec
  prev_desired_curv_20hz : List Vec
  inputs_desire : List Vec
  inputs_traffic_convention : Vec
  inputs_lateral_control_params : Vec
  inputs_features_buffer : List Vec
  inputs_prev_desired_curv : List Vec

/-- Result of one ModelState.run call: the new state, the numeric inputs
bound at the moment execute() ran (none on a prepare-only call, which
returns before execute), and the returned parsed outputs (None on a
prepare-only call, modeld.py:137-138). -/
structure RunResult where
  state : ModelState
  execInputs : Option ExecInputs
  outputs : Option EngineOutputs

/-- ModelState as built by __init__ (modeld.py:75-98): every buffer starts
zero-filled. -/
def initState : ModelState where
  prev_desire := zeroVec
  desire_20Hz := List.replicate 100 zeroVec
  full_features_20Hz := List.replicate 99 zeroVec
  prev_desired_curv_20hz := List.replicate 100 zeroVec
  inputs_desire := List.replicate 25 zeroVec
  inputs_traffic_convention := zeroVec
  inputs_lateral_control_params := zeroVec
  inputs_features_buffer := List.replicate 24 zeroVec
  inputs_prev_desired_curv := List.replicate 25 zeroVec

/-- ModelState.run (modeld.py:120-153), with the engine execute/parse pair
replaced by the oracle output engineOut. Statement order follows the
source: element 0 of the incoming desire array is forced to 0, the pulse
is taken against prev_desire, prev_desire stores the (zeroed) incoming
array, the 100-row desire history shifts left and appends the pulse, the
pooled desire and the traffic convention and lateral control params are
written into the bound inputs, then on a prepare-only call the function
returns None; otherwise execute runs on the currently bound inputs and
only afterwards are the feature and curvature histories shifted and the
features_buffer and prev_desired_curv inputs rewritten (the latter
multiplied by 0.0 per the source). -/
def ModelState.run (s : ModelState) (desire traffic_convention lateral_control_params : Vec)
    (prepare_only : Bool) (engineOut : EngineOutputs) : RunResult :=
  let desire0 := zeroIdx0 desire
  let new_desire := desirePulse desire0 s.prev_desire
  let desire_20Hz1 := s.desire_20Hz.tail ++ [new_desire]
  let s1 : ModelState :=
    { s with
      prev_desire := desire0
      desire_20Hz := desire_20Hz1
      inputs_desire := poolGroups desire_20Hz1
      inputs_traffic_convention := traffic_convention
      inputs_lateral_control_params := lateral_control_params }
  if prepare_only then
    { state := s1, execInputs := none, outputs := none }
  else
    let ei : ExecInputs :=
      { desire := s1.inputs_desire
        traffic_convention := traffic_convention
        lateral_control_params := lateral_control_params
        features_buffer := s.inputs_features_buffer
        prev_desired_curv := s.inputs_prev_desired_curv }
    let full1 := s.full_features_20Hz.tail ++ [engineOut.hidden_state]
    let curv1 := s.prev_desired_curv_20hz.tail ++ [engineOut.desired_curvature]
    let s2 : ModelState :=
      { s1 with
        full_features_20Hz := full1
        prev_desired_curv_20hz := curv1
        inputs_features_buffer := strideSelect full1
        inputs_prev_desired_curv :=
          s.inputs_prev_desired_curv.set 24 (fun i => 0 * (curv1.getD 96 zeroVec) i) }
    { state := s2, execInputs := some ei, outputs := some engineOut }

/-- The state after n cycles of the driver loop, with per-cycle desire,
traffic convention, lateral control params, prepare-only flag and engine
oracle given as sequences. -/
def traceState (din tc lcp : ℕ → Vec) (prep : ℕ → Bool) (out : ℕ → EngineOutputs) : ℕ → ModelState
  | 0 => initState
  | n + 1 =>
    (ModelState.run (traceState din tc lcp prep out n) (din n) (tc n) (lcp n) (prep n)
      (out n)).state

/-- The RunResult of cycle n of the trace. -/
def runAt (din tc lcp : ℕ → Vec) (prep : ℕ → Bool) (out : ℕ → EngineOutputs) (n : ℕ) :
    RunResult :=
  ModelState.run (traceState din tc lcp prep out n) (din n) (tc n) (lcp n) (prep n) (out n)

/-- The numeric inputs bound at the execute() of cycle n (none when cycle n
was prepare-only). -/
def execInputsAt (din tc lcp : ℕ → Vec) (prep : ℕ → Bool) (out : ℕ → EngineOutputs) (n : ℕ) :
    Option ExecInputs :=
  (runAt din tc lcp prep out n).execInputs

/-- Models modeld.py:286-288: the one-hot desire vector built in main from
the discrete desire index; all-zero when the index is outside
[0, DESIRE_LEN). -/
def vecDesire (des : ℤ) : Vec :=
  fun j => if (j : ℤ) = des ∧ j < DESIRE_LEN then 1 else 0

/-- Trace of ModelState.run driven, as in main, by a sequence of discrete
desire indices (traffic convention and lateral control params are
irrelevant to the desire pipeline and held at zero). -/
def idxTraceState (idx : ℕ → ℤ) (prep : ℕ → Bool) (out : ℕ → EngineOutputs) : ℕ → ModelState :=
  traceState (fun n => vecDesire (idx n)) (fun _ => zeroVec) (fun _ => zeroVec) prep out

/-- The rising-edge pulse vector computed inside ModelState.run at cycle n
of the index-driven trace (modeld.py:123-124): the incoming one-hot vector
with element 0 forced to 0, gated against the stored previous vector. -/
def pulseAt (idx : ℕ → ℤ) (prep : ℕ → Bool) (out : ℕ → EngineOutputs) (n : ℕ) : Vec :=
  desirePulse (zeroIdx0 (vecDesire (idx n))) ((idxTraceState idx prep out n).prev_desire)

/-- The key set of the frozen ModelState.inputs mapping (modeld.py:84-93),
as a function of the per-process flags DISABLE_NAV, DISABLE_RADAR and
SECRET_GOOD_OPENPILOT. The secret flag only changes buffer lengths, never
the key set; it is carried to mirror the source. -/
def modelStateInputKeys (disable_nav disable_radar secret : Bool) : List String :=
  ["desire", "traffic_convention", "lateral_control_params", "prev_desired_curv"]
    ++ (if disable_nav then [] else ["nav_features", "nav_instructions"])
    ++ ["features_buffer"]
    ++ (if disable_radar then ["radar_tracks"] else [])
    ++ (if secret then [] else [])

/-- The key set of the per-cycle inputs dict built in main
(modeld.py:335-341), as a function of DISABLE_NAV and DISABLE_RADAR. -/
def cycleInputKeys (disable_nav disable_radar : Bool) : List String :=
  ["desire", "traffic_convention", "lateral_control_params"]
    ++ (if disable_nav then [] else ["nav_features", "nav_instructions"])
    ++ (if disable_radar then ["radar_tracks"] else [])

/-- One upcoming maneuver from the navInstruction message
(modeld.py:304-312). -/
structure Maneuver where
  distance : ℚ
  modifier : String

/-- Python int() conversion applied to a rational: truncation toward
zero, as in int(maneuver.distance / 20) at modeld.py:305. -/
def pyTrunc (q : ℚ) : ℤ := if 0 ≤ q then ⌊q⌋ else -⌊-q⌋

/-- distance_idx = 25 + int(maneuver.distance / 20) (modeld.py:305). -/
def maneuverIdx (m : Maneuver) : ℤ := 25 + pyTrunc (m.distance / 20)

/-- direction_idx (modeld.py:306-310): 0 unless the modifier matches a
left keyword (1) and then a right keyword (2), tested in source order. -/
def directionIdx (m : Maneuver) : ℕ :=
  let d1 := if m.modifier ∈ ["left", "slight left", "sharp left"] then 1 else 0
  if m.modifier ∈ ["right", "slight right", "sharp right"] then 2 else d1

/-- One iteration of the maneuver loop (modeld.py:305-312): set slot
distance_idx * 3 + direction_idx to 1 when distance_idx lands in [0, 50),
otherwise leave the vector unchanged. -/
def navSetManeuver (v : Vec) (m : Maneuver) : Vec :=
  if 0 ≤ maneuverIdx m ∧ maneuverIdx m < 50 then
    fun j => if j = (maneuverIdx m).toNat * 3 + directionIdx m then 1 else v j
  else v

/-- The nav_instructions vector built from a navInstruction update
(modeld.py:302-312): the vector is zeroed, then each maneuver is encoded
in order. -/
def navInstructionsEncode (ms : List Maneuver) : Vec :=
  ms.foldl navSetManeuver zeroVec

/-- Per-cycle nav_instructions maintenance (modeld.py:295-312): when nav is
not enabled the vector is zeroed; when nav is enabled and a navInstruction
update arrived the vector is rebuilt from the maneuvers; otherwise it is
kept. -/
def navInstructionsUpdate (nav_enabled updated : Bool) (prev : Vec) (ms : List Maneuver) : Vec :=
  if !nav_enabled then zeroVec
  else if updated then navInstructionsEncode ms else prev

/-- FrameMeta (modeld.py:58-65): per-frame id and timestamps (nanoseconds). -/
structure FrameMeta where
  frame_id : ℕ
  timestamp_sof : ℤ
  timestamp_eof : ℤ
deriving DecidableEq

/-- The main-camera receive loop (modeld.py:239-243): keep receiving main
frames while the current main start-of-frame timestamp does not lead the
last accepted extra timestamp by at least 25 ms; a stream returning no
frame breaks out with buf_main = None (the cycle is then skipped). The
stream is the list of frames recv() will deliver, in order. -/
def recvMainLoop (mExtra : FrameMeta) : FrameMeta → List FrameMeta →
    Option FrameMeta × List FrameMeta
  | mMain, stream =>
    if mMain.timestamp_sof < mExtra.timestamp_sof + 25000000 then
      match stream with
      | [] => (none, [])
      | f :: rest => recvMainLoop mExtra f rest
    else (some mMain, stream)

/-- The extra-camera receive loop (modeld.py:251-255): receive extra frames
until the stream is exhausted (buf_extra = None, cycle skipped) or the
accepted main timestamp is within 25 ms ahead of the extra timestamp. -/
def recvExtraLoop (mMain : FrameMeta) : List FrameMeta → Option FrameMeta × List FrameMeta
  | [] => (none, [])
  | f :: rest =>
    if mMain.timestamp_sof < f.timestamp_sof + 25000000 then (some f, rest)
    else recvExtraLoop mMain rest

/-- The desynchronization fault test (modeld.py:261): true exactly when the
start-of-frame timestamps of the accepted pair differ by more than 10 ms,
in which case the source only logs an error and proceeds with the pair. -/
def outOfSync (mMain mExtra : FrameMeta) : Bool :=
  10000000 < (mMain.timestamp_sof - mExtra.timestamp_sof).natAbs

/-- Frame-pair acquisition for one cycle (modeld.py:237-268): run the main
receive loop, skip the cycle (none) when the main stream is exhausted,
then with a second camera run the extra receive loop, skip when exhausted,
and return the accepted pair together with the fault flag computed at
modeld.py:261. The fault is non-fatal: the returned pair is the accepted
pair in both branches of the fault test. Single-camera mode aliases the
extra frame to the main frame (modeld.py:265-268). -/
def acquireFramePair (use_extra_client : Bool) (mMain0 mExtra0 : FrameMeta)
    (mainStream extraStream : List FrameMeta) : Option (FrameMeta × FrameMeta × Bool) :=
  match recvMainLoop mExtra0 mMain0 mainStream with
  | (none, _) => none
  | (some mMain, _) =>
    if use_extra_client then
      match recvExtraLoop mMain extraStream with
      | (none, _) => none
      | (some mExtra, _) => some (mMain, mExtra, outOfSync mMain mExtra)
    else some (mMain, mMain, false)

/-- ModelConstants.MODEL_FREQ; the constants module is not in the given
source tree, the upstream openpilot value is 20 Hz. Used only through
dt = 1 / MODEL_FREQ in the drop filter; no claim depends on its value. -/
def MODEL_FREQ : ℚ := 20

/-- Modelled from the spec: FirstOrderFilter.update from
openpilot/common/filter_simple.py, which is not part of the given source
tree. The spec (section 4.4) describes it as a first-order low-pass
(exponential smoothing) with time constant rc at step dt: with
alpha = dt / (rc + dt), the state moves to (1 - alpha) * x + alpha * input. -/
def foFilterUpdate (rc dt x input : ℚ) : ℚ :=
  let alpha := dt / (rc + dt)
  (1 - alpha) * x + alpha * input

/-- The part of the main-loop state that drives the frame-drop monitor
(modeld.py:206-210): last accepted main frame id (modeld.py:370), the
cycle counter run_count, and the FirstOrderFilter state (x0 = 0, rc = 10,
dt = 1 / MODEL_FREQ). -/
structure DropState where
  last_vipc_frame_id : ℕ
  run_count : ℕ
  filter_x : ℚ

/-- Per-cycle quantities computed from the frame-drop monitor
(modeld.py:322-333) plus the publish decision: published is true exactly
when model.run returned a non-None output, i.e. when the cycle was not
prepare-only, in which case all three messages (modelV2, drivingModelData,
cameraOdometry) are sent (modeld.py:348-368). -/
structure CycleResult where
  vipc_dropped : ℤ
  frames_dropped : ℚ
  dropRatioValue : ℚ
  prepare_only : Bool
  published : Bool

/-- One cycle of the frame-drop monitor and publish decision
(modeld.py:322-333, 348-370): raw dropped count
max(0, frame_id - last_vipc_frame_id - 1), filter update on the count
clamped to at most 10, warm-up forcing of the filter state and the
reported count to 0 while run_count < 10, run_count increment, the
reported ratio frames_dropped / (1 + frames_dropped), the prepare-only
decision raw dropped > 0, and the advance of last_vipc_frame_id. -/
def dropCycle (s : DropState) (frame_id : ℕ) : DropState × CycleResult :=
  let vipc_dropped : ℤ := max 0 ((frame_id : ℤ) - (s.last_vipc_frame_id : ℤ) - 1)
  let x1 : ℚ := foFilterUpdate 10 (1 / MODEL_FREQ) s.filter_x (min ((vipc_dropped : ℚ)) 10)
  let x2 : ℚ := if s.run_count < 10 then 0 else x1
  let frames_dropped : ℚ := if s.run_count < 10 then 0 else x1
  let frame_drop : ℚ := frames_dropped / (1 + frames_dropped)
  let po : Bool := vipc_dropped > 0
  (⟨frame_id, s.run_count + 1, x2⟩,
   ⟨vipc_dropped, frames_dropped, frame_drop, po, !po⟩)

/-- The cycle results of feeding a finite list of accepted main frame ids
through successive drop-monitor cycles, starting from a given state. -/
def dropCycleSeq (s : DropState) : List ℕ → List CycleResult
  | [] => []
  | fid :: rest =>
    let r := dropCycle s fid
    r.2 :: dropCycleSeq r.1 rest

/-- The drop-monitor state before cycle n, for an infinite sequence of
accepted main frame ids; the initial state is frame_id 0, run_count 0,
filter state 0 (modeld.py:206-210). -/
def dropStateAt (ids : ℕ → ℕ) : ℕ → DropState
  | 0 => ⟨0, 0, 0⟩
  | n + 1 => (dropCycle (dropStateAt ids n) (ids n)).1

/-- The drop-monitor outputs of cycle n for an infinite id sequence. -/
def dropResultAt (ids : ℕ → ℕ) (n : ℕ) : CycleResult :=
  (dropCycle (dropStateAt ids n) (ids n)).2

/-- Fixed concrete oracle: all parsed outputs zero. Used by witnesses and
counterexamples. -/
def o0 : ℕ → EngineOutputs := fun _ => ⟨zeroVec, zeroVec⟩

/-- The all-ones array. -/
def oneVec : Vec := fun _ => 1

/-- The constant -1 array. -/
def negOneVec : Vec := fun _ => -1

/-- Oracle that agrees with o0 on cycle 0 only. -/
def o1 : ℕ → EngineOutputs := fun k => if k = 0 then ⟨zeroVec, zeroVec⟩ else ⟨oneVec, oneVec⟩

/-- Zero vector sequence. -/
def dz : ℕ → Vec := fun _ => zeroVec

/-- All-false prepare-only flag sequence. -/
def pf : ℕ → Bool := fun _ => false

/-- The one-hot array with a 1 in slot 0, as built by main for the desire
index 0. -/
def oneHot0 : Vec := fun i => if i = 0 then 1 else 0

/-- The constant desire index sequence 0. -/
def idx0seq : ℕ → ℤ := fun _ => 0

/-- Desire index sequence used by the pulse witness: index 2 at cycle 0,
index 1 afterwards. -/
def idxW : ℕ → ℤ := fun n => if n = 0 then 2 else 1

/-- Frame id sequence with a gap of one missing frame every cycle. -/
def ids2 : ℕ → ℕ := fun n => 2 * n + 2

/-- Frame id sequence constantly 0 (raw dropped count 0 at every cycle). -/
def zids : ℕ → ℕ := fun _ => 0

/-- Shorthand for building frame metadata with equal sof and eof stamps. -/
def fm (fid : ℕ) (ts : ℤ) : FrameMeta := ⟨fid, ts, ts⟩

/-! Helper lemmas about ModelState.run and the traces. -/

theorem run_prev_desire (s : ModelState) (d t l : Vec) (p : Bool) (o : EngineOutputs) :
    (ModelState.run s d t l p o).state.prev_desire = zeroIdx0 d := by
  cases p <;> rfl

theorem run_desire_20Hz (s : ModelState) (d t l : Vec) (p : Bool) (o : EngineOutputs) :
    (ModelState.run s d t l p o).state.desire_20Hz
      = s.desire_20Hz.tail ++ [desirePulse (zeroIdx0 d) s.prev_desire] := by
  cases p <;> rfl

theorem run_inputs_desire (s : ModelState) (d t l : Vec) (p : Bool) (o : EngineOutputs) :
    (ModelState.run s d t l p o).state.inputs_desire
      = poolGroups (s.desire_20Hz.tail ++ [desirePulse (zeroIdx0 d) s.prev_desire]) := by
  cases p <;> rfl

theorem run_execInputs_oracle_free (s : ModelState) (d t l : Vec) (p : Bool)
    (o o' : EngineOutputs) :
    (ModelState.run s d t l p o).execInputs = (ModelState.run s d t l p o').execInputs := by
  cases p <;> rfl
-- staging for claim theorems, appended to main file after testing

/-- Claim C1 (corrected). The key sets of both the frozen ModelState input
mapping and the per-cycle inputs dict are gated purely by the per-process
flags: the nav_features and nav_instructions keys are present if and only
if the DISABLE_NAV flag is off (navigation enabled), while the
radar_tracks key is present if and only if the DISABLE_RADAR flag
(frogpilot radarless_model toggle) is ON - the opposite polarity from the
nav channel, refuting the reading that the key is present when the radar
channel is enabled. -/
theorem inputKeys_gating_by_flags :
    ∀ dn dr sg : Bool,
      ("nav_features" ∈ modelStateInputKeys dn dr sg ↔ dn = false)
      ∧ ("nav_instructions" ∈ modelStateInputKeys dn dr sg ↔ dn = false)
      ∧ ("nav_features" ∈ cycleInputKeys dn dr ↔ dn = false)
      ∧ ("nav_instructions" ∈ cycleInputKeys dn dr ↔ dn = false)
      ∧ ("radar_tracks" ∈ modelStateInputKeys dn dr sg ↔ dr = true)
      ∧ ("radar_tracks" ∈ cycleInputKeys dn dr ↔ dr = true) := by decide

/-- Claim C1, counterexample to the claim as stated: with DISABLE_RADAR
false (radar channel enabled under the claim reading of the flag) the
radar_tracks key is ABSENT from both mappings, and with DISABLE_RADAR true
(radar disabled) it is PRESENT, so key presence is not equivalent to the
radar channel being enabled. -/
theorem radarTracks_present_when_radar_disabled :
    ("radar_tracks" ∈ modelStateInputKeys false true false)
    ∧ ("radar_tracks" ∉ modelStateInputKeys false false false)
    ∧ ("radar_tracks" ∈ cycleInputKeys false true)
    ∧ ("radar_tracks" ∉ cycleInputKeys false false) := by decide

/-- Claim C8 (confirmed). Sync fault boundary: from cold start, a main
frame at t = 100 ms paired with an extra frame at t = 92 ms (8 ms delta)
is accepted with no desynchronization fault, while pairing with an extra
frame at t = 88 ms (12 ms delta) is accepted with the fault flag set; in
both cases acquisition returns the same accepted pair, so the fault is
non-fatal and does not change which frames the cycle uses. -/
theorem sync_fault_boundary :
    acquireFramePair true (fm 0 0) (fm 0 0) [fm 1 100000000] [fm 1 92000000]
        = some (fm 1 100000000, fm 1 92000000, false)
    ∧ acquireFramePair true (fm 0 0) (fm 0 0) [fm 1 100000000] [fm 1 88000000]
        = some (fm 1 100000000, fm 1 88000000, true) := by decide

/-- Claim C6 (corrected). On every call, ModelState.run stores into
prev_desire the incoming desire vector AFTER its element 0 has been forced
to 0 (the in-place zeroing at modeld.py:123 precedes the copy at 125); at
every index other than 0 this agrees with the raw input, and the stored
value never depends on the pulse output or on the engine output. -/
theorem prevDesire_stores_zeroed_input (s : ModelState) (d t l : Vec) (p : Bool)
    (o : EngineOutputs) :
    (ModelState.run s d t l p o).state.prev_desire = zeroIdx0 d := by
  cases p <;> rfl

/-- Claim C6, counterexample to the claim as stated: for the one-hot input
with a 1 in slot 0 (the desire index 0 as encoded by main), the stored
prev_desire differs from the raw input vector passed in at element 0. -/
theorem prevDesire_not_raw_at_slot0 :
    (ModelState.run initState oneHot0 zeroVec zeroVec false (o0 0)).state.prev_desire 0
      ≠ oneHot0 0 := by decide

/-- Claim C4 (confirmed). Gap scenario: starting after warm-up (run_count
12) with last accepted frame id 99, the accepted main frame_id sequence
100, 101, 102, 105, 106 yields raw dropped counts 0,0,0,2,0; the cycle
seeing 105 computes raw dropped = 2, sets prepare_only and publishes
nothing, while every other cycle publishes; and a prepare-only
ModelState.run call returns None without executing and leaves the feature
history, the curvature history and the bound features_buffer and
prev_desired_curv inputs unchanged (only the per-cycle desire maintenance
and input copies run before the early return). -/
theorem gap_scenario_prepare_only :
    ((dropCycleSeq ⟨99, 12, 0⟩ [100, 101, 102, 105, 106]).map
        (fun r => (r.vipc_dropped, r.prepare_only, r.published))
      = [(0, false, true), (0, false, true), (0, false, true),
         (2, true, false), (0, false, true)])
    ∧ (∀ (s : ModelState) (d t l : Vec) (o : EngineOutputs),
        (ModelState.run s d t l true o).state.full_features_20Hz = s.full_features_20Hz
        ∧ (ModelState.run s d t l true o).state.prev_desired_curv_20hz
            = s.prev_desired_curv_20hz
        ∧ (ModelState.run s d t l true o).state.inputs_features_buffer
            = s.inputs_features_buffer
        ∧ (ModelState.run s d t l true o).state.inputs_prev_desired_curv
            = s.inputs_prev_desired_curv
        ∧ (ModelState.run s d t l true o).outputs = none) :=
  ⟨by decide, fun s d t l o => ⟨rfl, rfl, rfl, rfl, rfl⟩⟩

/-- Claim C7 (confirmed). With navigation enabled and a navInstruction
update carrying the single maneuver (distance 240, modifier slight left),
the resulting nav_instructions vector is 1 at index 112 = 37 * 3 + 1
(bucket 25 + trunc(240 / 20) = 37, direction slot 1) and 0 everywhere
else, whatever the previous vector was; and any maneuver whose bucket
falls outside [0, 49] leaves the vector untouched. -/
theorem nav_bucket_encoding :
    (∀ (prev : Vec) (j : ℕ),
      navInstructionsUpdate true true prev [⟨240, "slight left"⟩] j
        = if j = 112 then 1 else 0)
    ∧ (∀ (v : Vec) (m : Maneuver),
        (maneuverIdx m < 0 ∨ 50 ≤ maneuverIdx m) → navSetManeuver v m = v) := by
  constructor
  · intro prev j
    have hidx : maneuverIdx ⟨240, "slight left"⟩ = 37 := by
      norm_num [maneuverIdx, pyTrunc]
    have hdir : directionIdx ⟨240, "slight left"⟩ = 1 := by decide
    simp only [navInstructionsUpdate, Bool.not_true, if_true, if_false,
      Bool.false_eq_true, navInstructionsEncode, List.foldl, navSetManeuver, hidx, hdir]
    have h112 : (37 : ℤ).toNat * 3 + 1 = 112 := rfl
    rw [h112, if_pos (⟨by norm_num, by norm_num⟩ : (0:ℤ) ≤ 37 ∧ (37:ℤ) < 50)]
    simp [zeroVec]
  · intro v m h
    rw [navSetManeuver, if_neg]
    omega

/-- Claim C7, witness: a maneuver at distance 2000 has bucket 125, which is
at least 50, and encoding it leaves the vector unchanged. -/
theorem nav_bucket_encoding_witness :
    (maneuverIdx ⟨2000, "left"⟩ < 0 ∨ 50 ≤ maneuverIdx ⟨2000, "left"⟩)
    ∧ navSetManeuver zeroVec ⟨2000, "left"⟩ = zeroVec :=
  ⟨Or.inr (by norm_num [maneuverIdx, pyTrunc]),
   nav_bucket_encoding.2 zeroVec ⟨2000, "left"⟩ (Or.inr (by norm_num [maneuverIdx, pyTrunc]))⟩

/-- Claim C5 (corrected). Max-pool downsample: for a group of 4 consecutive
high-rate desire rows whose slot i holds exactly one nonzero entry v, the
pooled row for that group equals v at slot i regardless of which of the 4
positions holds it, PROVIDED the entry is positive; a negative entry is
not preserved, because the elementwise max of the group is then the zero
of the other three positions (see the counterexample). -/
theorem maxpool_single_positive_entry (r0 r1 r2 r3 : Vec) (rest : List Vec) (i : ℕ) (v : ℚ)
    (hv : 0 < v)
    (hone : (r0 i = v ∧ r1 i = 0 ∧ r2 i = 0 ∧ r3 i = 0)
      ∨ (r0 i = 0 ∧ r1 i = v ∧ r2 i = 0 ∧ r3 i = 0)
      ∨ (r0 i = 0 ∧ r1 i = 0 ∧ r2 i = v ∧ r3 i = 0)
      ∨ (r0 i = 0 ∧ r1 i = 0 ∧ r2 i = 0 ∧ r3 i = v)) :
    ((poolGroups (r0 :: r1 :: r2 :: r3 :: rest)).headD zeroVec) i = v := by
  have hmax0 : max v (0 : ℚ) = v := max_eq_left hv.le
  have h0max : max (0 : ℚ) v = v := max_eq_right hv.le
  have h00 : max (0 : ℚ) (0 : ℚ) = 0 := max_self 0
  show max (max (r0 i) (r1 i)) (max (r2 i) (r3 i)) = v
  rcases hone with ⟨h0, h1, h2, h3⟩ | ⟨h0, h1, h2, h3⟩ | ⟨h0, h1, h2, h3⟩ | ⟨h0, h1, h2, h3⟩ <;>
    rw [h0, h1, h2, h3] <;> simp [hmax0, h0max, h00]

/-- Claim C5, witness: a lone entry 1 in the third position of a group of
four zero rows pools to 1. -/
theorem maxpool_single_positive_entry_witness :
    (0 : ℚ) < 1
    ∧ ((poolGroups (zeroVec :: zeroVec :: oneVec :: zeroVec :: [])).headD zeroVec) 0 = 1 :=
  ⟨one_pos,
   maxpool_single_positive_entry zeroVec zeroVec oneVec zeroVec [] 0 1 one_pos
     (Or.inr (Or.inr (Or.inl ⟨rfl, rfl, rfl, rfl⟩)))⟩

/-- Claim C5, counterexample to the claim as stated: a group whose slot 0
holds exactly one nonzero entry, -1, pools to 0, not to the entry, so
without a sign restriction the pooled value does not equal the lone
nonzero entry. -/
theorem maxpool_negative_entry_counterexample :
    negOneVec 0 ≠ 0
    ∧ ((poolGroups (zeroVec :: zeroVec :: negOneVec :: zeroVec :: [])).headD zeroVec) 0 = 0
    ∧ ((poolGroups (zeroVec :: zeroVec :: negOneVec :: zeroVec :: [])).headD zeroVec) 0
        ≠ negOneVec 0 := by
  refine ⟨by norm_num [negOneVec], ?_, ?_⟩ <;>
    · show _
      norm_num [poolGroups, groupMax, vmax2, zeroVec, negOneVec]

/-- Two engine oracles that agree on every cycle before n drive the trace
to the same state at cycle n: the state never looks ahead. -/
theorem traceState_agree (din tc lcp : ℕ → Vec) (prep : ℕ → Bool)
    (out1 out2 : ℕ → EngineOutputs) :
    ∀ n, (∀ k, k < n → out1 k = out2 k) →
      traceState din tc lcp prep out1 n = traceState din tc lcp prep out2 n
  | 0, _ => rfl
  | n + 1, h => by
    have ih := traceState_agree din tc lcp prep out1 out2 n
      (fun k hk => h k (Nat.lt_succ_of_lt hk))
    simp only [traceState, ih, h n (Nat.lt_succ_self n)]

/-- Claim C2 (confirmed). One-cycle causal lag: the full bound input set of
the engine execution at cycle n - in particular its features_buffer and
prev_desired_curv components - is identical under any two engine oracles
that agree on cycles strictly before n, i.e. it is composed only of
outputs of strictly earlier cycles; and on an executing (non prepare-only)
cycle the rolling feature and curvature histories are extended with THIS
cycle output only after execute, entering the state used from cycle n + 1
on, never their own cycle input composition. -/
theorem featuresBuffer_causal_lag (din tc lcp : ℕ → Vec) (prep : ℕ → Bool)
    (out1 out2 : ℕ → EngineOutputs) (n : ℕ) (h : ∀ k, k < n → out1 k = out2 k) :
    execInputsAt din tc lcp prep out1 n = execInputsAt din tc lcp prep out2 n
    ∧ (prep n = false →
        (traceState din tc lcp prep out1 (n + 1)).full_features_20Hz
          = (traceState din tc lcp prep out1 n).full_features_20Hz.tail
              ++ [(out1 n).hidden_state]
        ∧ (traceState din tc lcp prep out1 (n + 1)).prev_desired_curv_20hz
          = (traceState din tc lcp prep out1 n).prev_desired_curv_20hz.tail
              ++ [(out1 n).desired_curvature]) := by
  constructor
  · unfold execInputsAt runAt
    rw [traceState_agree din tc lcp prep out1 out2 n h]
    exact run_execInputs_oracle_free _ _ _ _ _ _ _
  · intro hp
    constructor <;> simp only [traceState, ModelState.run, hp, Bool.false_eq_true, if_false]

/-- Claim C2, witness: with the all-zero input sequences and never
preparing, the inputs bound at the execution of cycle 1 coincide under the
zero oracle o0 and the oracle o1 that differs from o0 at every cycle
except cycle 0; and cycle 1 is an executing cycle whose feature history
gets the cycle-1 hidden state appended for use from cycle 2 on. -/
theorem featuresBuffer_causal_lag_witness :
    execInputsAt dz dz dz pf o0 1 = execInputsAt dz dz dz pf o1 1
    ∧ (traceState dz dz dz pf o0 2).full_features_20Hz
        = (traceState dz dz dz pf o0 1).full_features_20Hz.tail ++ [(o0 1).hidden_state] :=
  ⟨(featuresBuffer_causal_lag dz dz dz pf o0 o1 1
      (fun k hk => by
        have hk0 : k = 0 := Nat.lt_one_iff.mp hk
        subst hk0
        rfl)).1,
   ((featuresBuffer_causal_lag dz dz dz pf o0 o0 1 (fun _ _ => rfl)).2 rfl).1⟩

/-- Unfolded field values of one dropCycle step. -/
theorem dropCycle_spec (s : DropState) (f : ℕ) :
    (dropCycle s f).2.vipc_dropped = max 0 ((f : ℤ) - (s.last_vipc_frame_id : ℤ) - 1)
    ∧ (dropCycle s f).2.frames_dropped
        = (if s.run_count < 10 then 0
           else foFilterUpdate 10 (1 / MODEL_FREQ) s.filter_x
             (min ((max 0 ((f : ℤ) - (s.last_vipc_frame_id : ℤ) - 1) : ℤ) : ℚ) 10))
    ∧ (dropCycle s f).2.dropRatioValue
        = (dropCycle s f).2.frames_dropped / (1 + (dropCycle s f).2.frames_dropped)
    ∧ (dropCycle s f).1.filter_x
        = (if s.run_count < 10 then 0
           else foFilterUpdate 10 (1 / MODEL_FREQ) s.filter_x
             (min ((max 0 ((f : ℤ) - (s.last_vipc_frame_id : ℤ) - 1) : ℤ) : ℚ) 10))
    ∧ (dropCycle s f).1.run_count = s.run_count + 1 :=
  ⟨rfl, rfl, rfl, rfl, rfl⟩

/-- During warm-up (run_count below 10) the reported count, the reported
ratio and the stored filter state are all forced to zero. -/
theorem dropCycle_warm (s : DropState) (f : ℕ) (h : s.run_count < 10) :
    (dropCycle s f).2.dropRatioValue = 0 ∧ (dropCycle s f).2.frames_dropped = 0
    ∧ (dropCycle s f).1.filter_x = 0 := by
  obtain ⟨-, h2, h3, h4, -⟩ := dropCycle_spec s f
  have hfd : (dropCycle s f).2.frames_dropped = 0 := by rw [h2]; simp [h]
  refine ⟨?_, hfd, ?_⟩
  · rw [h3, hfd]; norm_num
  · rw [h4]; simp [h]

/-- A cycle that starts with filter state 0 and sees raw dropped count 0
reports ratio 0 and keeps filter state 0, warmed up or not. -/
theorem dropCycle_zero_zero (s : DropState) (f : ℕ) (hx : s.filter_x = 0)
    (hd : max 0 ((f : ℤ) - (s.last_vipc_frame_id : ℤ) - 1) = 0) :
    (dropCycle s f).2.dropRatioValue = 0 ∧ (dropCycle s f).1.filter_x = 0 := by
  obtain ⟨-, h2, h3, h4, -⟩ := dropCycle_spec s f
  have hfd : (dropCycle s f).2.frames_dropped = 0 := by
    rw [h2, hx, hd]
    by_cases h : s.run_count < 10 <;> simp [h, foFilterUpdate]
  constructor
  · rw [h3, hfd]; norm_num
  · rw [h4, hx, hd]
    by_cases h : s.run_count < 10 <;> simp [h, foFilterUpdate]

/-- The cycle counter equals the cycle number. -/
theorem dropStateAt_run_count (ids : ℕ → ℕ) : ∀ n, (dropStateAt ids n).run_count = n
  | 0 => rfl
  | n + 1 => by
    show (dropCycle (dropStateAt ids n) (ids n)).1.run_count = n + 1
    rw [(dropCycle_spec _ _).2.2.2.2, dropStateAt_run_count ids n]

/-- Claim C9 (confirmed). Drop filter convergence: for ANY observed frame
id sequence, each of the first 10 cycles reports drop ratio 0 and forces
the filter state to 0; and whenever the raw dropped count is 0 at every
cycle, the reported ratio frames_dropped / (1 + frames_dropped) is 0 at
every cycle (the zero-forced warm-up state is preserved exactly by zero
inputs, so more than 10 consecutive zero cycles from process start pin the
ratio at 0). -/
theorem drop_filter_convergence (ids : ℕ → ℕ) :
    (∀ n, n < 10 →
      (dropResultAt ids n).dropRatioValue = 0 ∧ (dropStateAt ids (n + 1)).filter_x = 0)
    ∧ ((∀ n, (dropResultAt ids n).vipc_dropped = 0) →
        ∀ n, (dropResultAt ids n).dropRatioValue = 0) := by
  constructor
  · intro n hn
    have hrc : (dropStateAt ids n).run_count < 10 := by
      rw [dropStateAt_run_count]; exact hn
    exact ⟨(dropCycle_warm _ _ hrc).1, (dropCycle_warm _ _ hrc).2.2⟩
  · intro hz
    have hx : ∀ n, (dropStateAt ids n).filter_x = 0 := by
      intro n
      induction n with
      | zero => rfl
      | succ n ih =>
        show (dropCycle (dropStateAt ids n) (ids n)).1.filter_x = 0
        exact (dropCycle_zero_zero _ _ ih ((dropCycle_spec _ _).1.symm.trans (hz n))).2
    intro n
    exact (dropCycle_zero_zero _ _ (hx n) ((dropCycle_spec _ _).1.symm.trans (hz n))).1

/-- With the frame id held at 0, the raw dropped count is 0 at every
cycle. -/
theorem zids_dropped (n : ℕ) : (dropResultAt zids n).vipc_dropped = 0 := by
  have hlast : (dropStateAt zids n).last_vipc_frame_id = 0 := by
    cases n with
    | zero => rfl
    | succ n => rfl
  show (dropCycle (dropStateAt zids n) (zids n)).2.vipc_dropped = 0
  rw [(dropCycle_spec _ _).1, hlast]
  norm_num [zids]

/-- Claim C9, witness: under a gappy id sequence cycle 3 (inside warm-up)
still reports ratio 0 with filter state forced to 0, and under the all-0
id sequence (raw dropped count 0 forever) cycle 12 reports ratio 0. -/
theorem drop_filter_convergence_witness :
    3 < 10
    ∧ ((dropResultAt ids2 3).dropRatioValue = 0 ∧ (dropStateAt ids2 4).filter_x = 0)
    ∧ (dropResultAt zids 12).dropRatioValue = 0 :=
  ⟨by norm_num, (drop_filter_convergence ids2).1 3 (by norm_num),
   (drop_filter_convergence zids).2 zids_dropped 12⟩

/-- Slot 0 of every row of a replicate-zero buffer reads 0. -/
theorem replicate_slot0 : ∀ (n i : ℕ), ((List.replicate n zeroVec).getD i zeroVec) 0 = 0
  | 0, i => by simp [List.getD_nil, zeroVec]
  | n + 1, 0 => by simp [List.replicate, List.getD_cons_zero, zeroVec]
  | n + 1, i + 1 => by
    simpa [List.replicate, List.getD_cons_succ] using replicate_slot0 n i

/-- Reading the tail shifts the row index by one. -/
theorem getD_tail_vec (l : List Vec) (i : ℕ) :
    l.tail.getD i zeroVec = l.getD (i + 1) zeroVec := by
  cases l with
  | nil => simp [List.getD_nil]
  | cons a l => simp [List.getD_cons_succ]

/-- Appending a row that is 0 at slot 0 to a buffer whose rows are all 0 at
slot 0 preserves the slot-0 property. -/
theorem slot0_append : ∀ (l : List Vec) (x : Vec),
    (∀ i, (l.getD i zeroVec) 0 = 0) → x 0 = 0 →
    ∀ i, (((l ++ [x]).getD i zeroVec) 0 = 0)
  | [], x, _, hx, 0 => by simpa [List.getD_cons_zero] using hx
  | [], x, _, _, i + 1 => by simp [List.getD_nil, List.getD_cons_succ, zeroVec]
  | a :: l, x, hl, _, 0 => by simpa [List.getD_cons_zero] using hl 0
  | a :: l, x, hl, hx, i + 1 => by
    simpa [List.getD_cons_succ] using
      slot0_append l x (fun j => by simpa [List.getD_cons_succ] using hl (j + 1)) hx i

/-- The max-pool of a buffer whose rows are all 0 at slot 0 is 0 at slot 0
in every pooled row. -/
theorem poolGroups_slot0 : ∀ (l : List Vec), (∀ i, (l.getD i zeroVec) 0 = 0) →
    ∀ g, ((poolGroups l).getD g zeroVec) 0 = 0
  | r0 :: r1 :: r2 :: r3 :: rest, h, 0 => by
    have h0 := h 0
    have h1 := h 1
    have h2 := h 2
    have h3 := h 3
    simp only [List.getD_cons_zero, List.getD_cons_succ] at h0 h1 h2 h3
    simp [poolGroups, List.getD_cons_zero, groupMax, vmax2, h0, h1, h2, h3]
  | r0 :: r1 :: r2 :: r3 :: rest, h, g + 1 => by
    simpa [poolGroups, List.getD_cons_succ] using
      poolGroups_slot0 rest (fun i => by simpa [List.getD_cons_succ] using h (i + 4)) g
  | [], _, g => by simp [poolGroups, List.getD_nil, zeroVec]
  | [r0], _, g => by simp [poolGroups, List.getD_nil, zeroVec]
  | [r0, r1], _, g => by simp [poolGroups, List.getD_nil, zeroVec]
  | [r0, r1, r2], _, g => by simp [poolGroups, List.getD_nil, zeroVec]

/-- The pulse computed by ModelState.run is always 0 at slot 0, because the
incoming desire element 0 is forced to 0 first. -/
theorem pulse_slot0 (d prev : Vec) : desirePulse (zeroIdx0 d) prev 0 = 0 := by
  simp [desirePulse, zeroIdx0]

/-- Trace invariant: prev_desire and every row of the high-rate desire
history are 0 at slot 0 at every cycle, for any input sequences. -/
theorem trace_desire_slot0 (din tc lcp : ℕ → Vec) (prep : ℕ → Bool) (out : ℕ → EngineOutputs) :
    ∀ n, (traceState din tc lcp prep out n).prev_desire 0 = 0
      ∧ ∀ i, ((traceState din tc lcp prep out n).desire_20Hz.getD i zeroVec) 0 = 0
  | 0 => ⟨rfl, fun i => replicate_slot0 100 i⟩
  | n + 1 => by
    obtain ⟨hp, hd⟩ := trace_desire_slot0 din tc lcp prep out n
    constructor
    · show (ModelState.run _ _ _ _ _ _).state.prev_desire 0 = 0
      rw [run_prev_desire]
      rfl
    · intro i
      show ((ModelState.run _ _ _ _ _ _).state.desire_20Hz.getD i zeroVec) 0 = 0
      rw [run_desire_20Hz]
      exact slot0_append _ _
        (fun j => by rw [getD_tail_vec]; exact hd (j + 1)) (pulse_slot0 _ _) i

/-- Claim C10 (confirmed). Element 0 of the desire input is forced to 0
inside ModelState.run before the pulse is computed and before prev_desire
is stored; consequently, for every input sequence and cycle, slot 0 of the
pulse, of every row of the high-rate desire history, of every row of the
pooled model-facing desire input, and of the stored prev_desire is 0, so
maneuver index 0 can never produce a pulse. -/
theorem desire_slot0_always_zero (din tc lcp : ℕ → Vec) (prep : ℕ → Bool)
    (out : ℕ → EngineOutputs) (t i g : ℕ) :
    desirePulse (zeroIdx0 (din t)) ((traceState din tc lcp prep out t).prev_desire) 0 = 0
    ∧ ((traceState din tc lcp prep out t).desire_20Hz.getD i zeroVec) 0 = 0
    ∧ ((traceState din tc lcp prep out t).inputs_desire.getD g zeroVec) 0 = 0
    ∧ (traceState din tc lcp prep out (t + 1)).prev_desire 0 = 0 := by
  obtain ⟨hp, hd⟩ := trace_desire_slot0 din tc lcp prep out t
  refine ⟨pulse_slot0 _ _, hd i, ?_, (trace_desire_slot0 din tc lcp prep out (t + 1)).1⟩
  cases t with
  | zero => exact replicate_slot0 25 g
  | succ m =>
    obtain ⟨hpm, hdm⟩ := trace_desire_slot0 din tc lcp prep out m
    show ((ModelState.run _ _ _ _ _ _).state.inputs_desire.getD g zeroVec) 0 = 0
    rw [run_inputs_desire]
    exact poolGroups_slot0 _
      (slot0_append _ _ (fun j2 => by rw [getD_tail_vec]; exact hdm (j2 + 1))
        (pulse_slot0 _ _)) g

/-- Desire-history length is constant at 100 rows across all cycles. -/
theorem trace_desire_len (din tc lcp : ℕ → Vec) (prep : ℕ → Bool) (out : ℕ → EngineOutputs) :
    ∀ n, (traceState din tc lcp prep out n).desire_20Hz.length = 100
  | 0 => by simp [traceState, initState]
  | n + 1 => by
    show (ModelState.run _ _ _ _ _ _).state.desire_20Hz.length = 100
    rw [run_desire_20Hz]
    simp [List.length_append, List.length_tail,
      trace_desire_len din tc lcp prep out n]

/-- Reading index 99 of a 99-row list with one row appended gives the
appended row. -/
theorem getD_concat_99 (l : List Vec) (x : Vec) (h : l.length = 99) :
    (l ++ [x]).getD 99 zeroVec = x := by
  rw [List.getD_eq_getElem?_getD, ← h, List.getElem?_concat_length]
  rfl

/-- Pulse of a one-hot desire transition, per slot: for a slot d in
[1, DESIRE_LEN), the pulse is nonzero exactly when the current index
selects d and the previous index does not. -/
theorem pulse_slot_iff (a b : ℤ) (d : ℕ) (hd1 : 1 ≤ d) (hd8 : d < DESIRE_LEN) :
    (desirePulse (zeroIdx0 (vecDesire a)) (zeroIdx0 (vecDesire b)) d ≠ 0
      ↔ ((d : ℤ) = a ∧ (d : ℤ) ≠ b)) := by
  have hd0 : d ≠ 0 := Nat.one_le_iff_ne_zero.mp hd1
  have hcur : zeroIdx0 (vecDesire a) d = if (d : ℤ) = a then 1 else 0 := by
    simp [zeroIdx0, vecDesire, hd0, hd8]
  have hprev : zeroIdx0 (vecDesire b) d = if (d : ℤ) = b then 1 else 0 := by
    simp [zeroIdx0, vecDesire, hd0, hd8]
  have hpulse : desirePulse (zeroIdx0 (vecDesire a)) (zeroIdx0 (vecDesire b)) d
      = if (zeroIdx0 (vecDesire a) d - zeroIdx0 (vecDesire b) d > 99/100)
          then zeroIdx0 (vecDesire a) d else 0 := rfl
  rw [hpulse, hcur, hprev]
  by_cases h1 : (d : ℤ) = a
  · by_cases h2 : (d : ℤ) = b
    · have hab : a = b := h1.symm.trans h2
      simp [h1, h2, hab]
      norm_num
    · have hab : a ≠ b := fun h => h2 (h1.trans h)
      simp [h1, h2, hab]
      norm_num
  · by_cases h2 : (d : ℤ) = b
    · have hba : b ≠ a := fun h => h1 (h2.trans h)
      simp [h1, h2, hba]
    · simp [h1, h2]

/-- Pulse of a one-hot desire at the very first call, where the stored
previous vector is all zero. -/
theorem pulse_slot_iff_first (a : ℤ) (d : ℕ) (hd1 : 1 ≤ d) (hd8 : d < DESIRE_LEN) :
    (desirePulse (zeroIdx0 (vecDesire a)) zeroVec d ≠ 0 ↔ (d : ℤ) = a) := by
  have hd0 : d ≠ 0 := Nat.one_le_iff_ne_zero.mp hd1
  have hcur : zeroIdx0 (vecDesire a) d = if (d : ℤ) = a then 1 else 0 := by
    simp [zeroIdx0, vecDesire, hd0, hd8]
  have hpulse : desirePulse (zeroIdx0 (vecDesire a)) zeroVec d
      = if (zeroIdx0 (vecDesire a) d - zeroVec d > 99/100)
          then zeroIdx0 (vecDesire a) d else 0 := rfl
  have hz : zeroVec d = 0 := rfl
  rw [hpulse, hcur, hz]
  by_cases h1 : (d : ℤ) = a
  · simp [h1]
    norm_num
  · simp [h1]

/-- The pulse against an identical previous vector vanishes everywhere. -/
theorem pulse_same_zero (v : Vec) (j : ℕ) :
    desirePulse (zeroIdx0 v) (zeroIdx0 v) j = 0 := by
  norm_num [desirePulse]

/-- The previous-desire vector stored when cycle n + 1 starts is the
(slot-0-zeroed) one-hot vector of the cycle-n desire index. -/
theorem idxTrace_prev (idx : ℕ → ℤ) (prep : ℕ → Bool) (out : ℕ → EngineOutputs) (n : ℕ) :
    (idxTraceState idx prep out (n + 1)).prev_desire = zeroIdx0 (vecDesire (idx n)) := by
  show (ModelState.run _ _ _ _ _ _).state.prev_desire = _
  rw [run_prev_desire]

/-- Claim C3 (corrected). For any desire index sequence, at every slot d in
[1, DESIRE_LEN) the pulse computed in ModelState.run is nonzero at a cycle
if and only if that cycle is the first transition into desire d (the index
selects d now and did not at the previous call; at cycle 0 the all-zero
initial previous vector makes any selected d an onset); the pulse vector
vanishes entirely on every repeat of the same sustained desire index; and
the pulse is exactly the row ModelState.run appends to the high-rate
desire history. The claim as stated fails only at slot 0: a 0-to-1 onset
of desire index 0 produces no pulse, because element 0 is forced to 0
(see the counterexample). -/
theorem pulse_onset_iff (idx : ℕ → ℤ) (prep : ℕ → Bool) (out : ℕ → EngineOutputs) (n : ℕ) :
    (∀ d, 1 ≤ d → d < DESIRE_LEN →
      ((pulseAt idx prep out 0 d ≠ 0 ↔ (d : ℤ) = idx 0)
       ∧ (pulseAt idx prep out (n + 1) d ≠ 0
            ↔ ((d : ℤ) = idx (n + 1) ∧ (d : ℤ) ≠ idx n))))
    ∧ (idx (n + 1) = idx n → ∀ j, pulseAt idx prep out (n + 1) j = 0)
    ∧ (idxTraceState idx prep out (n + 1)).desire_20Hz.getD 99 zeroVec
        = pulseAt idx prep out n := by
  refine ⟨fun d hd1 hd8 => ⟨?_, ?_⟩, fun hrep j => ?_, ?_⟩
  · show desirePulse _ (initState.prev_desire) d ≠ 0 ↔ _
    exact pulse_slot_iff_first (idx 0) d hd1 hd8
  · show desirePulse _ ((idxTraceState idx prep out (n + 1)).prev_desire) d ≠ 0 ↔ _
    rw [idxTrace_prev]
    exact pulse_slot_iff (idx (n + 1)) (idx n) d hd1 hd8
  · show desirePulse (zeroIdx0 (vecDesire (idx (n + 1))))
      ((idxTraceState idx prep out (n + 1)).prev_desire) j = 0
    rw [idxTrace_prev, hrep]
    exact pulse_same_zero _ j
  · show (ModelState.run _ _ _ _ _ _).state.desire_20Hz.getD 99 zeroVec = _
    rw [run_desire_20Hz]
    refine getD_concat_99 _ _ ?_
    rw [List.length_tail, trace_desire_len]

/-- Claim C3, witness: with index 2 at cycle 0 and index 1 afterwards,
cycle 1 is the first transition into desire 1 and its pulse at slot 1 is
nonzero, by the onset equivalence. -/
theorem pulse_onset_iff_witness :
    1 ≤ 1 ∧ 1 < DESIRE_LEN ∧ pulseAt idxW pf o0 1 1 ≠ 0 :=
  ⟨le_refl 1, by norm_num [DESIRE_LEN],
   ((pulse_onset_iff idxW pf o0 0).1 1 (le_refl 1)
       (by norm_num [DESIRE_LEN])).2.mpr ⟨by norm_num [idxW], by norm_num [idxW]⟩⟩

/-- Claim C3, counterexample to the claim as stated: from the all-zero
initial state, desire index 0 at cycle 0 is a 0-to-1 onset in slot 0 of
the raw one-hot input (the raw vector holds 1 there, the stored previous
vector holds 0), yet the pulse computed in ModelState.run is zero in every
slot of the DESIRE_LEN-wide vector, so an onset of desire 0 never yields a
nonzero pulse. -/
theorem pulse_zero_on_desire_zero_onset :
    vecDesire (idx0seq 0) 0 = 1 ∧ initState.prev_desire 0 = 0
    ∧ pulseAt idx0seq pf o0 0 0 = 0 ∧ pulseAt idx0seq pf o0 0 1 = 0
    ∧ pulseAt idx0seq pf o0 0 2 = 0 ∧ pulseAt idx0seq pf o0 0 3 = 0
    ∧ pulseAt idx0seq pf o0 0 4 = 0 ∧ pulseAt idx0seq pf o0 0 5 = 0
    ∧ pulseAt idx0seq pf o0 0 6 = 0 ∧ pulseAt idx0seq pf o0 0 7 = 0 := by
  refine ⟨?_, rfl, ?_, ?_, ?_, ?_, ?_, ?_, ?_, ?_⟩ <;>
    norm_num [pulseAt, idxTraceState, traceState, initState, desirePulse, zeroIdx0,
      vecDesire, idx0seq, zeroVec, DESIRE_LEN]
